import Mathlib

set_option linter.unusedVariables false

/-!
Verification model of pyvyos (src/pyvyos/device.py): a VyOS HTTP-API client.
The payload builder (VyDevice._get_payload), the request executor
(VyDevice._api_request) and the URL formatter (VyDevice._get_url) are
embedded as pure Lean functions; the HTTP transport is a parameter, and
uncaught Python exceptions are modelled with Except.error.
-/

/-- JSON values as handled by the Python json module in device.py.
Objects keep insertion order, as Python dicts do. -/
inductive JVal where
  | jnull : JVal
  | jbool : Bool → JVal
  | jstr : String → JVal
  | jarr : List JVal → JVal
  | jobj : List (String × JVal) → JVal
deriving Repr

/-- Escaping of a single character as done by json.dumps for the
characters that can occur in this development. -/
def escChar (c : Char) : String :=
  if c = '\\' then "\\\\"
  else if c = '"' then "\\\""
  else if c = '\n' then "\\n"
  else if c = '\t' then "\\t"
  else if c = '\r' then "\\r"
  else c.toString

/-- String escaping as done by json.dumps. -/
def jescape (s : String) : String :=
  String.join (s.toList.map escChar)

/-- A JSON string literal: quotes around the escaped content. -/
def jquote (s : String) : String :=
  "\"" ++ jescape s ++ "\""

mutual

/-- Serialization of a JSON value with the default separators of
json.dumps, as called at lines 125 and 152 of device.py. -/
def jdumps : JVal → String
  | .jnull => "null"
  | .jbool true => "true"
  | .jbool false => "false"
  | .jstr s => jquote s
  | .jarr xs => "[" ++ jdumpsArr xs ++ "]"
  | .jobj fs => "\x7b" ++ jdumpsObj fs ++ "\x7d"

/-- Comma-separated serialization of the elements of a JSON array. -/
def jdumpsArr : List JVal → String
  | [] => ""
  | [x] => jdumps x
  | x :: y :: rest => jdumps x ++ ", " ++ jdumpsArr (y :: rest)

/-- Comma-separated serialization of the fields of a JSON object. -/
def jdumpsObj : List (String × JVal) → String
  | [] => ""
  | [(k, v)] => jquote k ++ ": " ++ jdumps v
  | (k, v) :: f :: rest => jquote k ++ ": " ++ jdumps v ++ ", " ++ jdumpsObj (f :: rest)

end

/-- One element of the path argument of VyDevice._get_payload: either a
plain string segment or a nested list of string segments (the two shapes
the isinstance check at line 138 of device.py distinguishes). -/
inductive PathElem where
  | str : String → PathElem
  | list : List String → PathElem
deriving Repr

/-- The JSON value a path element itself denotes (used when path has
exactly one element, line 132 of device.py: data takes path[0] directly). -/
def elemJ : PathElem → JVal
  | .str s => .jstr s
  | .list xs => .jarr (xs.map .jstr)

/-- The scanning loop of lines 134-149 of device.py, returning the list of
command paths accumulated in data. The second argument is the path buffer
of current_command. A plain segment is appended to the buffer; a nested
list finalizes the buffer into the output when the buffer is non-empty and
becomes the new buffer seed; at the end the buffer is finalized only when
non-empty. -/
def batchPaths : List PathElem → List String → List (List String)
  | [], cur => if cur.isEmpty then [] else [cur]
  | .str s :: rest, cur => batchPaths rest (cur ++ [s])
  | .list xs :: rest, cur =>
    if cur.isEmpty then batchPaths rest xs
    else cur :: batchPaths rest xs

/-- The JSON value serialized into the data field of the payload by
VyDevice._get_payload (before the optional file, url and name fields are
considered): lines 109-113 (empty path), 130-132 (singleton path, which
uses path[0] itself), 133-149 (general case: a batch array). -/
def getPayloadData (op : String) (path : List PathElem) : JVal :=
  match path with
  | [] => .jobj [("op", .jstr op), ("path", .jarr [])]
  | [e] => .jobj [("op", .jstr op), ("path", elemJ e)]
  | _ =>
    .jarr ((batchPaths path []).map
      (fun q => .jobj [("op", .jstr op), ("path", .jarr (q.map .jstr))]))

/-- Error message of the Python TypeError raised when a dict-style item
assignment is attempted on a list. -/
def listAssignError : String :=
  "TypeError: list indices must be integers or slices, not str"

/-- VyDevice._get_payload (lines 95-165 of device.py). The wire payload is
an insertion-ordered association list of string fields. In the empty-path
branch, file, url and name are inserted into the data dict before
json.dumps is applied. In the other branches json.dumps has already been
applied when the optional fields are handled: the file and name
assignments mutate the no-longer-referenced data value, so only url (put
on the payload itself) is visible; when the data value is a list (the
general branch), the file and name item assignments raise a TypeError,
modelled as Except.error. -/
def getPayload (apikey : String) (op : String) (path : List PathElem)
    (file : Option String) (url : Option String) (name : Option String) :
    Except String (List (String × String)) :=
  match path with
  | [] =>
    let d0 : List (String × JVal) := [("op", .jstr op), ("path", .jarr [])]
    let d1 := match file with
      | some f => d0 ++ [("file", .jstr f)]
      | none => d0
    let d2 := match url with
      | some u => d1 ++ [("url", .jstr u)]
      | none => d1
    let d3 := match name with
      | some n => d2 ++ [("name", .jstr n)]
      | none => d2
    .ok [("data", jdumps (.jobj d3)), ("key", apikey)]
  | [e] =>
    let p0 : List (String × String) :=
      [("data", jdumps (getPayloadData op [e])), ("key", apikey)]
    let p1 := match url with
      | some u => p0 ++ [("url", u)]
      | none => p0
    .ok p1
  | e1 :: e2 :: rest =>
    let p0 : List (String × String) :=
      [("data", jdumps (getPayloadData op (e1 :: e2 :: rest))), ("key", apikey)]
    if file.isSome then .error listAssignError
    else
      let p1 := match url with
        | some u => p0 ++ [("url", u)]
        | none => p0
      if name.isSome then .error listAssignError
      else .ok p1

/-- Connection parameters of a VyDevice instance (lines 64-81 of
device.py); verify and timeout only parametrize the transport and are
absorbed into the transport function of the model. -/
structure VyDevice where
  hostname : String
  apikey : String
  protocol : String
  port : Nat

/-- VyDevice._get_url (line 93 of device.py). -/
def getUrl (dev : VyDevice) (command : String) : String :=
  dev.protocol ++ "://" ++ dev.hostname ++ ":" ++ toString dev.port ++ "/" ++ command

/-- Outcome of the requests.post call at line 191 of device.py: either an
HTTP response with a status code and a body (Except.error meaning the body
is not valid JSON, so that resp.json() raises json.JSONDecodeError), or a
requests.exceptions.ConnectionError carrying a message. -/
inductive HttpOutcome where
  | resp : Nat → Except String (List (String × JVal)) → HttpOutcome
  | connError : String → HttpOutcome

/-- Python dict key access on a decoded JSON object. -/
def jlookup (k : String) : List (String × JVal) → Option JVal
  | [] => none
  | (k2, v) :: rest => if k2 = k then some v else jlookup k rest

/-- The classification of the transport outcome done by the try/except of
lines 190-212 of device.py, producing the (status, result, error) triple.
result starts as the empty dict and error as False (lines 187-188). Only
requests.exceptions.ConnectionError and json.JSONDecodeError are caught:
a missing success, data or error key in a decoded 200 body raises an
uncaught KeyError, modelled as Except.error. -/
def classify (outcome : HttpOutcome) : Except String (Nat × JVal × JVal) :=
  match outcome with
  | .connError msg => .ok (0, .jobj [], .jstr ("connection error: " ++ msg))
  | .resp status body =>
    if status = 200 then
      match body with
      | .error _ => .ok (status, .jobj [], .jstr "json decode error")
      | .ok fields =>
        match jlookup "success" fields with
        | none => .error "KeyError: success"
        | some sv =>
          match sv with
          | .jbool true =>
            match jlookup "data" fields with
            | none => .error "KeyError: data"
            | some d => .ok (status, d, .jbool false)
          | _ =>
            match jlookup "error" fields with
            | none => .error "KeyError: error"
            | some e => .ok (status, .jobj [], e)
    else .ok (status, .jobj [], .jstr "http error")

/-- The ApiResponse dataclass (lines 6-20 of device.py). The error field
holds False or a JSON value, so it is a JVal here. -/
structure ApiResponse where
  status : Nat
  request : List (String × String)
  result : JVal
  error : JVal

/-- Deletion of the key field from the payload (line 215 of device.py). -/
def removeKey (payload : List (String × String)) : List (String × String) :=
  payload.filter (fun kv => kv.1 != "key")

/-- VyDevice._api_request (lines 167-217 of device.py). The transport
argument stands for requests.post. Note that line 183 rebinds the local
variable url to the endpoint address before _get_payload is called, so the
url argument of the caller never reaches the payload: this rebinding is
reproduced by the let below. An uncaught exception (from _get_payload or
from the body classification) is an Except.error. -/
def apiRequest (dev : VyDevice)
    (transport : String → List (String × String) → HttpOutcome)
    (command : String) (op : String) (path : List PathElem)
    (file : Option String) (url : Option String) (name : Option String) :
    Except String ApiResponse :=
  let url := getUrl dev command
  match getPayload dev.apikey op path file (some url) name with
  | .error e => .error e
  | .ok payload =>
    match classify (transport url payload) with
    | .error e => .error e
    | .ok (status, result, err) => .ok ⟨status, removeKey payload, result, err⟩

/-- VyDevice.image_add (lines 267-279 of device.py). -/
def imageAdd (dev : VyDevice)
    (transport : String → List (String × String) → HttpOutcome)
    (url : Option String) : Except String ApiResponse :=
  apiRequest dev transport "image" "add" [] none url none

/-! Helper lemmas about the scanning loop. -/

/-- On a path of plain string segments the scanning loop only extends the
buffer, producing at most one command. -/
theorem batchPaths_str_append (l : List String) (cur : List String) :
    batchPaths (l.map PathElem.str) cur =
      if (cur ++ l).isEmpty then [] else [cur ++ l] := by
  induction l generalizing cur with
  | nil => simp [batchPaths]
  | cons s l ih =>
    have hsplit : cur ++ s :: l = (cur ++ [s]) ++ l := by simp
    simp only [List.map_cons, batchPaths, ih, hsplit]

/-- Every command path produced by the scanning loop is non-empty: both
append sites (lines 141 and 148 of device.py) are guarded by a
non-emptiness test on the buffer. -/
theorem batchPaths_mem_ne_nil : ∀ (path : List PathElem) (cur : List String),
    ∀ q ∈ batchPaths path cur, q ≠ []
  | [], cur => by
    intro q hq
    cases cur with
    | nil => simp [batchPaths] at hq
    | cons a l =>
      simp [batchPaths] at hq
      subst hq
      simp
  | .str s :: rest, cur => by
    intro q hq
    exact batchPaths_mem_ne_nil rest (cur ++ [s]) q (by simpa [batchPaths] using hq)
  | .list xs :: rest, cur => by
    intro q hq
    cases cur with
    | nil => exact batchPaths_mem_ne_nil rest xs q (by simpa [batchPaths] using hq)
    | cons a l =>
      simp [batchPaths] at hq
      rcases hq with h | h
      · subst h
        simp
      · exact batchPaths_mem_ne_nil rest xs q h

/-! Claims. -/

/-- Claim C1, as stated, is false: for the path input [a, [b,c], d, [e]]
the payload data is not the four-request batch
[(path [a]), (path [b,c]), (path [d]), (path [e])], because the plain
segment d is appended to the request seeded by the nested sequence [b,c]. -/
theorem c1_counterexample :
    getPayloadData "set" [.str "a", .list ["b", "c"], .str "d", .list ["e"]] ≠
      .jarr [.jobj [("op", .jstr "set"), ("path", .jarr [.jstr "a"])],
             .jobj [("op", .jstr "set"), ("path", .jarr [.jstr "b", .jstr "c"])],
             .jobj [("op", .jstr "set"), ("path", .jarr [.jstr "d"])],
             .jobj [("op", .jstr "set"), ("path", .jarr [.jstr "e"])]] := by
  have h : getPayloadData "set" [.str "a", .list ["b", "c"], .str "d", .list ["e"]] =
      .jarr [.jobj [("op", .jstr "set"), ("path", .jarr [.jstr "a"])],
             .jobj [("op", .jstr "set"), ("path", .jarr [.jstr "b", .jstr "c", .jstr "d"])],
             .jobj [("op", .jstr "set"), ("path", .jarr [.jstr "e"])]] := rfl
  rw [h]
  simp

/-- Claim C1 amended: for path input [a, [b,c], d, [e]] the payload data is
the batch [(path [a]), (path [b,c,d]), (path [e])]: a nested-sequence
boundary with a non-empty buffer finalizes the buffer and seeds the next
request, and a plain segment always appends to the current buffer, so d
extends the request seeded by [b,c] instead of starting its own. -/
theorem c1_boundary_batch (op a b c d e : String) :
    getPayloadData op [.str a, .list [b, c], .str d, .list [e]] =
      .jarr [.jobj [("op", .jstr op), ("path", .jarr [.jstr a])],
             .jobj [("op", .jstr op), ("path", .jarr [.jstr b, .jstr c, .jstr d])],
             .jobj [("op", .jstr op), ("path", .jarr [.jstr e])]] := rfl

/-- Claim C2, as stated, is false: for the flat two-segment path
[interfaces, ethernet] the payload data is not a single request object;
it is a one-element batch array. -/
theorem c2_counterexample :
    getPayloadData "set" [.str "interfaces", .str "ethernet"] ≠
      .jobj [("op", .jstr "set"),
             ("path", .jarr [.jstr "interfaces", .jstr "ethernet"])] := by
  have h : getPayloadData "set" [.str "interfaces", .str "ethernet"] =
      .jarr [.jobj [("op", .jstr "set"),
                    ("path", .jarr [.jstr "interfaces", .jstr "ethernet"])]] := rfl
  rw [h]
  simp

/-- Claim C2 amended: for every flat path of plain segments of length
greater than 1, the payload data is a one-element batch array containing a
single Operation Request whose path equals the input sequence unchanged
(the general branch is taken and the scan accumulates all segments into
one command, which json.dumps then serializes as an array of one object). -/
theorem c2_flat_singleton_batch (op : String) (l : List String) (h : 1 < l.length) :
    getPayloadData op (l.map PathElem.str) =
      .jarr [.jobj [("op", .jstr op), ("path", .jarr (l.map JVal.jstr))]] := by
  rcases l with _ | ⟨x, _ | ⟨y, rest⟩⟩
  · simp at h
  · simp at h
  · have hb : batchPaths ((x :: y :: rest).map PathElem.str) [] = [x :: y :: rest] := by
      rw [batchPaths_str_append]
      simp
    show JVal.jarr ((batchPaths ((x :: y :: rest).map PathElem.str) []).map
        (fun q => .jobj [("op", .jstr op), ("path", .jarr (q.map JVal.jstr))])) = _
    rw [hb]
    simp

/-- Witness for c2_flat_singleton_batch at the concrete flat input
[interfaces, ethernet]. -/
theorem c2_flat_singleton_batch_witness :
    getPayloadData "set" (["interfaces", "ethernet"].map PathElem.str) =
      .jarr [.jobj [("op", .jstr "set"),
                    ("path", .jarr (["interfaces", "ethernet"].map JVal.jstr))]] :=
  c2_flat_singleton_batch "set" ["interfaces", "ethernet"] (by decide)

/-- Claim C8, as stated, is false: a trailing empty nested-sequence
boundary in [a, []] does not produce a batch entry with an empty path; the
batch has exactly one entry, for path [a], because an empty buffer is
never appended (lines 140-141 and 148-149 of device.py test truthiness). -/
theorem c8_counterexample :
    getPayloadData "set" [.str "a", .list []] =
      .jarr [.jobj [("op", .jstr "set"), ("path", .jarr [.jstr "a"])]] ∧
    getPayloadData "set" [.str "a", .list []] ≠
      .jarr [.jobj [("op", .jstr "set"), ("path", .jarr [.jstr "a"])],
             .jobj [("op", .jstr "set"), ("path", .jarr [])]] := by
  constructor
  · rfl
  · have h : getPayloadData "set" [.str "a", .list []] =
        .jarr [.jobj [("op", .jstr "set"), ("path", .jarr [.jstr "a"])]] := rfl
    rw [h]
    simp

/-- Claim C8 amended: an empty nested-sequence boundary never contributes
an Operation Request to the batch: every command path produced by the scan
of the general branch is non-empty, so empty boundaries are silently
dropped rather than passed through. -/
theorem c8_no_empty_boundary (path : List PathElem) (q : List String)
    (h : q ∈ batchPaths path []) : q ≠ [] :=
  batchPaths_mem_ne_nil path [] q h

/-- Witness for c8_no_empty_boundary at the input [a, []] whose batch is
the single command path [a]. -/
theorem c8_no_empty_boundary_witness : (["a"] : List String) ≠ [] :=
  c8_no_empty_boundary [.str "a", .list []] ["a"] (by simp [batchPaths])

/-- Claim C9 confirmed: for a one-element path list the request path field
is the element itself (line 132 of device.py uses path[0] directly),
whether it is a plain string or a nested list; in particular for the
reboot and poweroff default path [now] the serialized path is the bare
string now, not a one-element array. -/
theorem c9_singleton_path (op : String) (e : PathElem) :
    getPayloadData op [e] = .jobj [("op", .jstr op), ("path", elemJ e)] ∧
    getPayloadData op [.str "now"] =
      .jobj [("op", .jstr op), ("path", .jstr "now")] :=
  ⟨rfl, rfl⟩

/-- Claim C3, as stated, is false: not every failure is captured into the
Response. For an HTTP 200 response whose body is valid JSON but has no
success field, the dict access resp_decoded[success] at line 197 of
device.py raises a KeyError that no except clause catches, so the call
raises instead of returning a Response. -/
theorem c3_counterexample :
    apiRequest ⟨"h", "KEY", "https", 443⟩ (fun _ _ => .resp 200 (.ok []))
      "show" "show" [] none none none = .error "KeyError: success" := rfl

/-- Claim C3 amended: a transport connection failure is captured into the
Response with status 0, error equal to the string connection error:
followed by the underlying message, and empty result; but the operation
does not never raise: failures other than connection errors and JSON
decode errors (for example a 200 JSON body without the success key)
propagate as uncaught exceptions. -/
theorem c3_connection_error (dev : VyDevice)
    (command op : String) (path : List PathElem)
    (file url name : Option String) (msg : String)
    (p : List (String × String))
    (hp : getPayload dev.apikey op path file (some (getUrl dev command)) name = .ok p) :
    apiRequest dev (fun _ _ => .connError msg) command op path file url name =
      .ok ⟨0, removeKey p, .jobj [], .jstr ("connection error: " ++ msg)⟩ := by
  simp [apiRequest, hp, classify]

/-- Witness for c3_connection_error at a concrete device and payload. -/
theorem c3_connection_error_witness :
    apiRequest ⟨"h", "KEY", "https", 443⟩ (fun _ _ => .connError "boom")
      "show" "show" [] none none none =
      .ok ⟨0,
        removeKey [("data",
          "\x7b\"op\": \"show\", \"path\": [], \"url\": \"https://h:443/show\"\x7d"),
          ("key", "KEY")],
        .jobj [], .jstr ("connection error: " ++ "boom")⟩ :=
  c3_connection_error ⟨"h", "KEY", "https", 443⟩ "show" "show" [] none none none
    "boom" _ rfl

/-- Claim C4 confirmed: whenever a Response is returned, its request field
is the payload with the key field deleted (line 215 of device.py), so the
credential key never appears among the request fields, under every
outcome. -/
theorem c4_request_no_key (dev : VyDevice)
    (transport : String → List (String × String) → HttpOutcome)
    (command op : String) (path : List PathElem)
    (file url name : Option String) (r : ApiResponse)
    (h : apiRequest dev transport command op path file url name = .ok r) :
    "key" ∉ r.request.map Prod.fst := by
  simp only [apiRequest] at h
  cases hp : getPayload dev.apikey op path file (some (getUrl dev command)) name with
  | error e =>
    rw [hp] at h
    simp at h
  | ok payload =>
    rw [hp] at h
    simp only [] at h
    cases hc : classify (transport (getUrl dev command) payload) with
    | error e =>
      rw [hc] at h
      simp at h
    | ok t =>
      obtain ⟨status, result, err⟩ := t
      rw [hc] at h
      simp only [Except.ok.injEq] at h
      subst h
      simp [removeKey, List.mem_map, List.mem_filter]

/-- Witness for c4_request_no_key at a concrete transport failure. -/
theorem c4_request_no_key_witness :
    "key" ∉ (ApiResponse.mk 0
      [("data", "\x7b\"op\": \"show\", \"path\": [], \"url\": \"https://h:443/show\"\x7d")]
      (.jobj []) (.jstr "connection error: boom")).request.map Prod.fst :=
  c4_request_no_key ⟨"h", "KEY", "https", 443⟩ (fun _ _ => .connError "boom")
    "show" "show" [] none none none _ rfl

/-- Claim C5, as stated, is false in its branch 2/3 part: when file is
provided with a non-empty path, the assignment at line 157 of device.py
targets the data object after json.dumps has already been taken at line
152, so the returned payload has no top-level file field at all (singleton
path), and with a multi-element path the assignment targets a list and
raises a TypeError. -/
theorem c5_counterexample :
    (∃ p, getPayload "KEY" "save" [.str "a"] (some "f") none none = .ok p ∧
      "file" ∉ p.map Prod.fst) ∧
    getPayload "KEY" "save" [.str "a", .str "b"] (some "f") none none =
      .error listAssignError := by
  refine ⟨⟨[("data", "\x7b\"op\": \"save\", \"path\": \"a\"\x7d"), ("key", "KEY")],
    rfl, by simp⟩, rfl⟩

/-- Claim C5 amended: with an empty path, file, url and name are all
inserted into the data object before serialization; with a non-empty path
the file and name assignments happen after serialization and never reach
the returned payload (singleton path) or raise a TypeError (multi-element
path), while url is attached to the outer payload wrapper. -/
theorem c5_field_placement (k op f u n a : String) :
    getPayload k op [] (some f) (some u) (some n) =
      .ok [("data", jdumps (.jobj [("op", .jstr op), ("path", .jarr []),
        ("file", .jstr f), ("url", .jstr u), ("name", .jstr n)])), ("key", k)] ∧
    getPayload k op [.str a] (some f) (some u) (some n) =
      .ok [("data", jdumps (.jobj [("op", .jstr op), ("path", .jstr a)])),
        ("key", k), ("url", u)] ∧
    getPayload k op [.str a, .str a] (some f) (some u) (some n) =
      .error listAssignError ∧
    getPayload k op [.str a, .str a] none (some u) (some n) =
      .error listAssignError :=
  ⟨rfl, rfl, rfl, rfl⟩

/-- Claim C6 is the stated intent but the code does not implement it: line
183 of device.py rebinds the local variable url to the endpoint address
before _get_payload is called, so image_add with a caller-supplied image
url produces a payload whose url field is the endpoint address
https://host:443/image, and the caller-supplied url is ignored. -/
theorem c6_url_shadowed :
    imageAdd ⟨"host", "KEY", "https", 443⟩
      (fun _ _ => .resp 200 (.ok [("success", .jbool true), ("data", .jobj [])]))
      (some "http://example.com/vyos.iso") =
    .ok ⟨200,
      [("data",
        "\x7b\"op\": \"add\", \"path\": [], \"url\": \"https://host:443/image\"\x7d")],
      .jobj [], .jbool false⟩ := rfl

/-- Claim C7 confirmed: for an HTTP 200 response whose JSON body has
success false and an error value, the Response has status 200, empty
result and error equal to the server error; for success true, result is
the body data field and error is false; for a non-200 status the error is
http error and the result empty. -/
theorem c7_response_classification (dev : VyDevice) (command op : String)
    (path : List PathElem) (file url name : Option String)
    (p : List (String × String))
    (hp : getPayload dev.apikey op path file (some (getUrl dev command)) name = .ok p)
    (fsF fsT : List (String × JVal)) (emsg : String) (d : JVal) (s : Nat)
    (hF1 : jlookup "success" fsF = some (.jbool false))
    (hF2 : jlookup "error" fsF = some (.jstr emsg))
    (hT1 : jlookup "success" fsT = some (.jbool true))
    (hT2 : jlookup "data" fsT = some d)
    (hs : s ≠ 200) :
    apiRequest dev (fun _ _ => .resp 200 (.ok fsF)) command op path file url name =
      .ok ⟨200, removeKey p, .jobj [], .jstr emsg⟩ ∧
    apiRequest dev (fun _ _ => .resp 200 (.ok fsT)) command op path file url name =
      .ok ⟨200, removeKey p, d, .jbool false⟩ ∧
    apiRequest dev (fun _ _ => .resp s (.ok [])) command op path file url name =
      .ok ⟨s, removeKey p, .jobj [], .jstr "http error"⟩ := by
  refine ⟨?_, ?_, ?_⟩
  · simp [apiRequest, hp, classify, hF1, hF2]
  · simp [apiRequest, hp, classify, hT1, hT2]
  · simp [apiRequest, hp, classify, hs]

/-- Witness for c7_response_classification at concrete bodies: success
false with error bad path, success true with a data object, and a 503. -/
theorem c7_response_classification_witness :
    apiRequest ⟨"h", "KEY", "https", 443⟩
      (fun _ _ => .resp 200 (.ok [("success", .jbool false), ("error", .jstr "bad path")]))
      "show" "show" [] none none none =
      .ok ⟨200,
        removeKey [("data",
          "\x7b\"op\": \"show\", \"path\": [], \"url\": \"https://h:443/show\"\x7d"),
          ("key", "KEY")],
        .jobj [], .jstr "bad path"⟩ ∧
    apiRequest ⟨"h", "KEY", "https", 443⟩
      (fun _ _ => .resp 200 (.ok [("success", .jbool true), ("data", .jobj [("x", .jbool true)])]))
      "show" "show" [] none none none =
      .ok ⟨200,
        removeKey [("data",
          "\x7b\"op\": \"show\", \"path\": [], \"url\": \"https://h:443/show\"\x7d"),
          ("key", "KEY")],
        .jobj [("x", .jbool true)], .jbool false⟩ ∧
    apiRequest ⟨"h", "KEY", "https", 443⟩ (fun _ _ => .resp 503 (.ok []))
      "show" "show" [] none none none =
      .ok ⟨503,
        removeKey [("data",
          "\x7b\"op\": \"show\", \"path\": [], \"url\": \"https://h:443/show\"\x7d"),
          ("key", "KEY")],
        .jobj [], .jstr "http error"⟩ :=
  c7_response_classification ⟨"h", "KEY", "https", 443⟩ "show" "show" [] none none none
    _ rfl [("success", .jbool false), ("error", .jstr "bad path")]
    [("success", .jbool true), ("data", .jobj [("x", .jbool true)])]
    "bad path" (.jobj [("x", .jbool true)]) 503 rfl rfl rfl rfl (by decide)

/-- Claim C10 confirmed: whenever _get_payload returns, the payload starts
with a data field holding the serialization of one JSON value, and its key
list is exactly [data, key] or [data, key, url]; file and name never
appear as top-level payload keys. -/
theorem c10_payload_keys (k op : String) (path : List PathElem)
    (file url name : Option String) (p : List (String × String))
    (h : getPayload k op path file url name = .ok p) :
    (∃ j rest, p = ("data", jdumps j) :: rest) ∧
    (p.map Prod.fst = ["data", "key"] ∨ p.map Prod.fst = ["data", "key", "url"]) := by
  cases path with
  | nil =>
    cases file <;> cases url <;> cases name <;>
      · simp [getPayload] at h
        subst h
        exact ⟨⟨_, _, rfl⟩, by simp⟩
  | cons e tl =>
    cases tl with
    | nil =>
      cases url <;>
        · simp [getPayload] at h
          subst h
          exact ⟨⟨_, _, rfl⟩, by simp⟩
    | cons e2 tl2 =>
      cases file with
      | some f => simp [getPayload] at h
      | none =>
        cases name with
        | some n => cases url <;> simp [getPayload] at h
        | none =>
          cases url <;>
            · simp [getPayload] at h
              subst h
              exact ⟨⟨_, _, rfl⟩, by simp⟩

/-- Witness for c10_payload_keys at the empty path with no optional
fields. -/
theorem c10_payload_keys_witness :
    (∃ j rest, ([("data", "\x7b\"op\": \"show\", \"path\": []\x7d"), ("key", "KEY")] :
        List (String × String)) = ("data", jdumps j) :: rest) ∧
    (([("data", "\x7b\"op\": \"show\", \"path\": []\x7d"), ("key", "KEY")] :
        List (String × String)).map Prod.fst = ["data", "key"] ∨
      ([("data", "\x7b\"op\": \"show\", \"path\": []\x7d"), ("key", "KEY")] :
        List (String × String)).map Prod.fst = ["data", "key", "url"]) :=
  c10_payload_keys "KEY" "show" [] none none none _ rfl
